import Mathlib

/-!
Shallow embedding of the synchronization/offload core of the pylot
repository (object tracker operator, PID control operator, the MPC
runner test harness, and the offload wire framing), together with
theorems settling the specification claims.

Python floats are modelled as exact rationals (`ℚ`), byte strings as
`List Nat` with each element `< 256`, deques as Lean lists (popleft =
head), and Python runtime failures (IndexError, UnboundLocalError,
AssertionError, ValueError, socket errors) as an explicit error type
threaded through `Except`.
-/

namespace Pylot

/-- A live socket connection handle (opaque to the core). -/
abbrev Conn := Nat

/-- Python runtime failures that the embedded operator code can raise. -/
inductive PyErr where
  /-- `deque.popleft()` or indexing on an empty container. -/
  | indexError : PyErr
  /-- Reading a local variable before any branch assigned it. -/
  | unboundLocal : PyErr
  /-- A failed `assert` statement. -/
  | assertionError : PyErr
  /-- `ValueError` (e.g. no waypoints left). -/
  | valueError : PyErr
  /-- Calling a method on `None` (e.g. `send` on an absent socket). -/
  | attributeError : PyErr
  /-- A raw socket-level failure (reset, refused, short write). -/
  | socketError : PyErr
deriving DecidableEq, Repr

/-- erdos timestamps: integer coordinates plus the terminal sentinel. -/
structure Timestamp where
  coordinates : List Int
  is_top : Bool
deriving DecidableEq, Repr

/-! ## PipelineDelayAccountant

`ObjectTrackerOperator.__compute_tracker_delay(world_time,
detector_runtime, tracker_runtime)` (object_tracker_operator.py,
lines 192-211).  The mutable field
`self._last_tracker_run_completion_time` is threaded explicitly: the
function returns `(returned delay, new last completion time)`. -/

/-- Embedding of `__compute_tracker_delay`: given the current
`_last_tracker_run_completion_time` and the call arguments, return the
delay the source returns and the updated completion time. -/
def compute_tracker_delay (last : ℚ) (world_time detector_runtime tracker_runtime : ℚ) :
    ℚ × ℚ :=
  if world_time + detector_runtime > last then
    let tracker_runtime := detector_runtime + tracker_runtime
    (tracker_runtime, world_time + tracker_runtime)
  else
    let last := last + tracker_runtime
    (last - world_time, last)

/-- Run `compute_tracker_delay` over a call sequence
`(world_time, detector_runtime, tracker_runtime)`, collecting for each
call the pair (returned delay, completion time after the call). -/
def compute_tracker_delay_run (last : ℚ) : List (ℚ × ℚ × ℚ) → List (ℚ × ℚ)
  | [] => []
  | (w, d, t) :: rest =>
    let r := compute_tracker_delay last w d t
    r :: compute_tracker_delay_run r.2 rest

/-! ## Offload wire framing

The request side of `fetch_from_server` calls `service.send_msg`,
whose source is not in the repository; the response side is
`self._server.recv(4096)` followed directly by `pickle.loads`
(object_tracker_operator.py lines 131-134, pid_control_operator.py
lines 95-98). -/

/-- A byte string: a list of values `< 256`. -/
def Bytes := List Nat

/-- Big-endian 4-byte encoding of a length `n < 2^32`. -/
def beEncode4 (n : Nat) : List Nat :=
  [n / 2 ^ 24 % 256, n / 2 ^ 16 % 256, n / 2 ^ 8 % 256, n % 256]

/-- Decode a big-endian 4-byte prefix. -/
def beDecode4 (b0 b1 b2 b3 : Nat) : Nat :=
  b0 * 2 ^ 24 + b1 * 2 ^ 16 + b2 * 2 ^ 8 + b3

/-- Modelled from the spec: `service.send_msg` (the `service` module is
not part of the repository) frames a payload as a 4-byte unsigned
big-endian length followed by the payload bytes. -/
def send_msg (payload : List Nat) : List Nat :=
  beEncode4 payload.length ++ payload

/-- What the source actually reads from the response stream: a single
`recv(4096)`, i.e. up to 4096 bytes of whatever is available, handed
directly to deserialization. -/
def fetch_recv (stream : List Nat) : List Nat :=
  stream.take 4096

/-- The claim's receive discipline, stated for comparison with
`fetch_recv`: read a 4-byte big-endian length prefix, then exactly that
many response bytes; a stream shorter than the declared length is a
transport error (`PyErr.socketError` standing for `TransportError`). -/
def claimed_recv (stream : List Nat) : Except PyErr (List Nat) :=
  match stream with
  | b0 :: b1 :: b2 :: b3 :: rest =>
    let n := beDecode4 b0 b1 b2 b3
    if n ≤ rest.length then Except.ok (rest.take n) else Except.error PyErr.socketError
  | _ => Except.error PyErr.socketError

/-! ## MPCRunner.run_MPC

`carla_wrapper/isolated_run_test.py`, lines 63-87.  The controller
call and the prints are I/O; the controller's result is passed in as
the tuple `(steer, throttle, brake, controller_runtime)` and the
mutable fields `self.throttle`, `self.brake`, `self.steer` are the
explicit state. -/

/-- The stored previous command of `MPCRunner` (`self.throttle`,
`self.brake`, `self.steer`, all initialized to `-1`). -/
structure MPCState where
  throttle : ℚ
  brake : ℚ
  steer : ℚ
deriving DecidableEq, Repr

/-- The initial `MPCRunner` state (`__init__`). -/
def MPCState.init : MPCState := ⟨-1, -1, -1⟩

/-- Embedding of `MPCRunner.run_MPC` after the controller returned
`(steer, throttle, brake, controller_runtime)`: substitute the stored
command for an exactly-neutral command when one was stored, then
overwrite the stored command. -/
def run_MPC (ctrl : ℚ × ℚ × ℚ × ℚ) (st : MPCState) : MPCState :=
  let (steer, throttle, brake, _controller_runtime) := ctrl
  let (steer, throttle, brake) :=
    if throttle = 0 ∧ brake = 1/2 ∧ steer = 0 then
      if st.throttle ≠ -1 ∧ st.brake ≠ -1 then
        (st.steer, st.throttle, st.brake)
      else (steer, throttle, brake)
    else (steer, throttle, brake)
  { throttle := throttle, brake := brake, steer := steer }

/-! ## ObjectTrackerOperator

`pylot/perception/tracking/object_tracker_operator.py`.  Logging,
file writes and timing side effects are dropped; the tracker
algorithms, the remote server and socket creation are supplied by a
`TrackerEnv`; the operator's mutable fields form `TrackerState`. -/

/-- The flags the tracker operator consults. -/
structure TrackerFlags where
  use_cloud_tracking_server : Bool
  use_local_tracking_server : Bool
  track_every_nth_detection : Int
deriving DecidableEq, Repr

/-- An obstacle payload: opaque data plus the two class predicates the
operator consults (`is_vehicle()`, `is_person()`). -/
structure Obstacle where
  data : Nat
  is_vehicle : Bool
  is_person : Bool
deriving DecidableEq, Repr

/-- A camera frame payload (opaque to the operator). -/
structure CameraFrame where
  data : Nat
deriving DecidableEq, Repr

/-- A message on the camera stream. -/
structure FrameMessage where
  timestamp : Timestamp
  frame : CameraFrame
deriving DecidableEq, Repr

/-- `pylot.perception.messages.ObstaclesMessage`: used both for the
detector's input messages and the tracker's output message
(timestamp, obstacles, runtime). -/
structure ObstaclesMessage where
  timestamp : Timestamp
  obstacles : List Obstacle
  runtime : ℚ
deriving DecidableEq, Repr

/-- External collaborators of the tracker operator: the wrapped tracker
algorithm (`_reinit_tracker` / `_run_tracker` results), the socket the
OS hands back on `connect`, and the remote server's behaviour. -/
structure TrackerEnv where
  /-- Runtime in ms of `self._tracker.reinitialize` (its result value is
  discarded by the source). -/
  reinit_tracker : CameraFrame → List Obstacle → ℚ
  /-- `_run_tracker`: runtime in ms and the tracker's `(ok, tracked_obstacles)`. -/
  track : CameraFrame → ℚ × (Bool × List Obstacle)
  /-- The socket object produced by `socket.socket(...); connect(...)`. -/
  newConn : Conn
  /-- One `send_msg` + `recv` + `pickle.loads` round trip with the remote
  tracker, together with `convert.to_pylot_obstacle_message` (the
  `service`/`convert` modules are not in the repository; modelled from
  the spec: the response carries tracked obstacles and a runtime).
  An error models a socket-level failure during the call. -/
  server_call : Conn → CameraFrame → List Obstacle → Bool → Except PyErr (List Obstacle × ℚ)

/-- The tracker operator's mutable fields. -/
structure TrackerState where
  obstacles_msgs : List ObstaclesMessage
  frame_msgs : List FrameMessage
  detection_update_count : Int
  last_tracker_run_completion_time : ℚ
  server : Option Conn

/-- The fields as `__init__` leaves them. -/
def TrackerState.init : TrackerState :=
  { obstacles_msgs := [], frame_msgs := [], detection_update_count := -1,
    last_tracker_run_completion_time := 0, server := none }

/-- Embedding of the tracker's `connect_to_server` (lines 98-112): when
either server flag is enabled, store a fresh socket in `self._server`;
otherwise leave the state unchanged (the source prints and returns
`None`). -/
def tracker_connect_to_server (fl : TrackerFlags) (env : TrackerEnv)
    (st : TrackerState) : TrackerState :=
  if fl.use_cloud_tracking_server then { st with server := some env.newConn }
  else if fl.use_local_tracking_server then { st with server := some env.newConn }
  else st

/-- Embedding of the tracker's `fetch_from_server` (lines 114-136):
connect lazily when `self._server` is `None`, then perform one
request/response round trip.  The returned state carries the possibly
newly-stored socket; note that a failing call leaves `server`
untouched. -/
def tracker_fetch_from_server (fl : TrackerFlags) (env : TrackerEnv) (st : TrackerState)
    (frame : CameraFrame) (obstacles : List Obstacle) (reinit : Bool) :
    TrackerState × Except PyErr (List Obstacle × ℚ) :=
  let st := if st.server = none then tracker_connect_to_server fl env st else st
  match st.server with
  | none => (st, Except.error PyErr.attributeError)
  | some c => (st, env.server_call c frame obstacles reinit)

/-- Lines 179-190 of `on_watermark`, common to the remote and local
paths: `assert ok`, add the reinitialization runtime, fold the timing
through `__compute_tracker_delay` (reading `timestamp.coordinates[0]`),
and send one `ObstaclesMessage`. -/
def tracker_finish (timestamp : Timestamp) (st : TrackerState) (ok : Bool)
    (tracked_obstacles : List Obstacle)
    (detector_runtime reinit_runtime tracker_runtime : ℚ) :
    TrackerState × Except PyErr (List ObstaclesMessage) :=
  if ok then
    let tracker_runtime := tracker_runtime + reinit_runtime
    match timestamp.coordinates with
    | [] => (st, Except.error PyErr.indexError)
    | t0 :: _ =>
      let (tracker_delay, last) :=
        compute_tracker_delay st.last_tracker_run_completion_time (t0 : ℚ)
          detector_runtime tracker_runtime
      let st := { st with last_tracker_run_completion_time := last }
      (st, Except.ok [{ timestamp := timestamp, obstacles := tracked_obstacles,
                        runtime := tracker_delay }])
  else (st, Except.error PyErr.assertionError)

/-- Embedding of `ObjectTrackerOperator.on_watermark` (lines 138-190).
The local variable `reinit` has no initialization in the source, so it
is carried as `Option Bool` with `none` marking "unbound"; reading it
while `none` is Python's `UnboundLocalError`. -/
def tracker_on_watermark (fl : TrackerFlags) (env : TrackerEnv) (timestamp : Timestamp)
    (st : TrackerState) : TrackerState × Except PyErr (List ObstaclesMessage) :=
  if timestamp.is_top then (st, Except.ok [])
  else
    match st.frame_msgs with
    | [] => (st, Except.error PyErr.indexError)
    | frame_msg :: frame_rest =>
      let st := { st with frame_msgs := frame_rest }
      let camera_frame := frame_msg.frame
      let tracked_obstacles : List Obstacle := []
      let detector_runtime : ℚ := 0
      let reinit_runtime : ℚ := 0
      let reinit : Option Bool := none
      -- Lines 151-159: consume the obstacles message only when its
      -- timestamp matches; `reinit` is assigned only on the nth update.
      let (st, tracked_obstacles, detector_runtime, reinit, obstacles_msg) :=
        match st.obstacles_msgs with
        | obstacles_msg :: obs_rest =>
          if obstacles_msg.timestamp = timestamp then
            let st :=
              { st with
                obstacles_msgs := obs_rest
                detection_update_count := st.detection_update_count + 1 }
            if st.detection_update_count % fl.track_every_nth_detection = 0 then
              (st, obstacles_msg.obstacles, obstacles_msg.runtime, some true,
               some obstacles_msg)
            else
              (st, obstacles_msg.obstacles, detector_runtime, reinit,
               some obstacles_msg)
          else (st, tracked_obstacles, detector_runtime, reinit,
                (none : Option ObstaclesMessage))
        | [] => (st, tracked_obstacles, detector_runtime, reinit,
                 (none : Option ObstaclesMessage))
      if fl.use_local_tracking_server || fl.use_cloud_tracking_server then
        -- Line 163 evaluates the argument `reinit` before calling
        -- `fetch_from_server`.
        match reinit with
        | none => (st, Except.error PyErr.unboundLocal)
        | some reinit_val =>
          let (st, fetched) :=
            tracker_fetch_from_server fl env st camera_frame tracked_obstacles reinit_val
          match fetched with
          | Except.error e => (st, Except.error e)
          | Except.ok (out_obstacles, out_runtime) =>
            tracker_finish timestamp st true out_obstacles detector_runtime
              reinit_runtime out_runtime
      else
        -- Line 171 reads `reinit` in the branch condition.
        match reinit with
        | none => (st, Except.error PyErr.unboundLocal)
        | some reinit_val =>
          let reinit_step : Except PyErr ℚ :=
            if reinit_val then
              match obstacles_msg with
              | none => Except.error PyErr.unboundLocal
              | some om =>
                Except.ok (env.reinit_tracker camera_frame
                  (om.obstacles.filter (fun o => o.is_vehicle || o.is_person)))
            else Except.ok reinit_runtime
          match reinit_step with
          | Except.error e => (st, Except.error e)
          | Except.ok reinit_runtime =>
            let (tracker_runtime, (ok, tracked_obstacles)) := env.track camera_frame
            tracker_finish timestamp st ok tracked_obstacles detector_runtime
              reinit_runtime tracker_runtime

/-! ## PIDControlOperator

`pylot/control/pid_control_operator.py`.  The PID controller, the
planning helpers (`get_angle`, `get_target_speed`, ...) and the remote
server are supplied by a `PIDEnv`; the operator's mutable fields form
`PIDState`. -/

/-- The flags the PID control operator consults inside `on_watermark`. -/
structure PIDFlags where
  use_remote_pid_server : Bool
  min_pid_steer_waypoint_distance : ℚ
  min_pid_speed_waypoint_distance : ℚ
  steer_gain : ℚ
deriving DecidableEq, Repr

/-- A pose payload: an opaque ego transform and the forward speed. -/
structure Pose where
  transform : Nat
  forward_speed : ℚ
deriving DecidableEq, Repr

/-- A message on the pose stream (`msg.data` is the pose). -/
structure PoseMessage where
  timestamp : Timestamp
  data : Pose
deriving DecidableEq, Repr

/-- A waypoints payload: a list of opaque transforms plus target
speeds. -/
structure Waypoints where
  waypoints : List Nat
  target_speeds : List ℚ
deriving DecidableEq, Repr

/-- A message on the waypoints stream. -/
structure WaypointsMessage where
  timestamp : Timestamp
  waypoints : Waypoints
deriving DecidableEq, Repr

/-- `pylot.control.messages.ControlMessage(steer, throttle, brake,
hand_brake, reverse, timestamp)`. -/
structure ControlMessage where
  steer : ℚ
  throttle : ℚ
  brake : ℚ
  hand_brake : Bool
  reverse : Bool
  timestamp : Timestamp
deriving DecidableEq, Repr

/-- External collaborators of the PID operator: the planning helpers,
the PID controller, the socket from `connect`, and the remote server's
behaviour. -/
structure PIDEnv where
  /-- The value `waypoints.get_angle(ego_transform, min_dist)` computes
  when waypoints remain. -/
  angle : Nat → Waypoints → ℚ → ℚ
  /-- `waypoints.get_target_speed(ego_transform, min_dist)`. -/
  target_speed : Nat → Waypoints → ℚ → ℚ
  /-- `pylot.control.utils.compute_throttle_and_brake(pid, speed, target, ...)`. -/
  throttle_brake : ℚ → ℚ → ℚ × ℚ
  /-- `pylot.control.utils.radians_to_steer(angle, steer_gain)`. -/
  radians_to_steer : ℚ → ℚ → ℚ
  /-- The socket object produced by `socket.socket(...); connect(...)`. -/
  newConn : Conn
  /-- One `send_msg` + `recv` + `pickle.loads` round trip with the remote
  PID server together with `convert.to_pylot_control_message` (the
  `service`/`convert` modules are not in the repository; modelled from
  the spec: the response carries steer, throttle and brake).  An error
  models a socket-level failure during the call. -/
  server_call : Conn → Pose → Waypoints → Except PyErr (ℚ × ℚ × ℚ)

/-- The PID operator's mutable fields. -/
structure PIDState where
  waypoint_msgs : List WaypointsMessage
  pose_msgs : List PoseMessage
  server : Option Conn

/-- The fields as `__init__` leaves them. -/
def PIDState.init : PIDState :=
  { waypoint_msgs := [], pose_msgs := [], server := none }

/-- Modelled from the spec: `Waypoints.get_angle` (the planning module
is not in the repository) computes the steering angle toward the
waypoint ahead and raises `ValueError` when no waypoints are left; the
angle value itself is supplied by the environment. -/
def get_angle (env : PIDEnv) (w : Waypoints) (ego_transform : Nat)
    (min_dist : ℚ) : Except PyErr ℚ :=
  if w.waypoints.isEmpty then Except.error PyErr.valueError
  else Except.ok (env.angle ego_transform w min_dist)

/-- Embedding of the PID operator's `connect_to_server` (lines 69-80):
store a fresh socket in `self._server` when the remote PID server is
enabled; otherwise leave the state unchanged (the source prints and
returns `None`). -/
def pid_connect_to_server (fl : PIDFlags) (env : PIDEnv) (st : PIDState) : PIDState :=
  if fl.use_remote_pid_server then { st with server := some env.newConn } else st

/-- Embedding of the PID operator's `fetch_from_server` (lines 82-100):
connect lazily when `self._server` is `None`, then perform one
request/response round trip.  A failing call leaves `server`
untouched. -/
def pid_fetch_from_server (fl : PIDFlags) (env : PIDEnv) (st : PIDState)
    (pose_msg : PoseMessage) (waypoints : Waypoints) :
    PIDState × Except PyErr (ℚ × ℚ × ℚ) :=
  let st := if st.server = none then pid_connect_to_server fl env st else st
  match st.server with
  | none => (st, Except.error PyErr.attributeError)
  | some c => (st, env.server_call c pose_msg.data waypoints)

/-- Embedding of `PIDControlOperator.on_watermark` (lines 102-157). -/
def pid_on_watermark (fl : PIDFlags) (env : PIDEnv) (timestamp : Timestamp)
    (st : PIDState) : PIDState × Except PyErr (List ControlMessage) :=
  if timestamp.is_top then (st, Except.ok [])
  else
    match st.pose_msgs with
    | [] => (st, Except.error PyErr.indexError)
    | pose_msg :: pose_rest =>
      let st := { st with pose_msgs := pose_rest }
      let ego_transform := pose_msg.data.transform
      let current_speed := pose_msg.data.forward_speed
      match st.waypoint_msgs with
      | [] => (st, Except.error PyErr.indexError)
      | wp_msg :: wp_rest =>
        let st := { st with waypoint_msgs := wp_rest }
        let waypoints := wp_msg.waypoints
        if fl.use_remote_pid_server then
          let (st, fetched) := pid_fetch_from_server fl env st pose_msg waypoints
          match fetched with
          | Except.error e => (st, Except.error e)
          | Except.ok (steer, throttle, brake) =>
            (st, Except.ok [{ steer := steer, throttle := throttle, brake := brake,
                              hand_brake := false, reverse := false,
                              timestamp := timestamp }])
        else if waypoints.waypoints.length = 1 then
          -- Lines 128-133: brake with a neutral command.
          (st, Except.ok [{ steer := 0, throttle := 0, brake := 1/2,
                            hand_brake := false, reverse := false,
                            timestamp := timestamp }])
        else
          -- Lines 135-157: the try block; `except ValueError` falls back
          -- to the neutral command, any other error propagates.
          let attempt : Except PyErr (ℚ × ℚ × ℚ) :=
            match get_angle env waypoints ego_transform
                fl.min_pid_steer_waypoint_distance with
            | Except.error e => Except.error e
            | Except.ok angle_steer =>
              let target_speed :=
                env.target_speed ego_transform waypoints
                  fl.min_pid_speed_waypoint_distance
              let (throttle, brake) := env.throttle_brake current_speed target_speed
              let steer := env.radians_to_steer angle_steer fl.steer_gain
              Except.ok (steer, throttle, brake)
          match attempt with
          | Except.error PyErr.valueError =>
            (st, Except.ok [{ steer := 0, throttle := 0, brake := 1/2,
                              hand_brake := false, reverse := false,
                              timestamp := timestamp }])
          | Except.error e => (st, Except.error e)
          | Except.ok (steer, throttle, brake) =>
            (st, Except.ok [{ steer := steer, throttle := throttle, brake := brake,
                              hand_brake := false, reverse := false,
                              timestamp := timestamp }])

/-- Number of messages an `on_watermark` invocation sent on its output
stream (an invocation that raised sent none). -/
def sentCount {α : Type} : Except PyErr (List α) → Nat
  | Except.ok ms => ms.length
  | Except.error _ => 0

/-! ## Theorems for the claims -/

/-- Helper for C5: one accountant call keeps the completion time
non-decreasing and returns a delay of at least the resource's own
cost, given non-negative costs. -/
theorem compute_tracker_delay_step (last a u o : ℚ) (hu : 0 ≤ u) (ho : 0 ≤ o) :
    o ≤ (compute_tracker_delay last a u o).1 ∧
    last ≤ (compute_tracker_delay last a u o).2 := by
  simp only [compute_tracker_delay]
  by_cases h : a + u > last
  · rw [if_pos h]
    exact ⟨by simp; linarith, by simp; linarith⟩
  · rw [if_neg h]
    push_neg at h
    exact ⟨by simp; linarith, by simp; linarith⟩

/-- C1: the delay accountant `__compute_tracker_delay` follows the
claimed two-branch contract — when `arrivalTime + upstreamCost`
exceeds the stored completion time it returns `upstreamCost + ownCost`
and stores `(arrivalTime + upstreamCost) + ownCost`; otherwise it adds
`ownCost` to the stored completion time and returns the new completion
time minus `arrivalTime` — and the call sequence `(0,5,8)`, `(10,5,8)`,
`(20,5,8)` from completion time `0` returns delay `13` each time with
completion times `13`, `23`, `33`. -/
theorem C1_compute_tracker_delay_contract :
    (∀ last a u o : ℚ,
      (a + u > last →
        compute_tracker_delay last a u o = (u + o, a + u + o)) ∧
      (¬ a + u > last →
        compute_tracker_delay last a u o = (last + o - a, last + o))) ∧
    compute_tracker_delay_run 0 [(0, 5, 8), (10, 5, 8), (20, 5, 8)] =
      [(13, 13), (13, 23), (13, 33)] := by
  constructor
  · intro last a u o
    constructor
    · intro h
      simp only [compute_tracker_delay, if_pos h, Prod.mk.injEq]
      exact ⟨trivial, by ring⟩
    · intro h
      simp only [compute_tracker_delay, if_neg h]
  · norm_num [compute_tracker_delay_run, compute_tracker_delay]

/-- Witness for C1 at a concrete idle-branch input. -/
theorem C1_compute_tracker_delay_contract_witness :
    compute_tracker_delay 0 10 5 8 = (5 + 8, 10 + 5 + 8) :=
  (C1_compute_tracker_delay_contract.1 0 10 5 8).1 (by norm_num)

/-- C5: with non-negative upstream and own costs, every accountant call
returns a delay at least the own cost, and the stored completion time
(`_last_tracker_run_completion_time`) is non-decreasing across any call
sequence, regardless of the arrival times. -/
theorem C5_delay_accountant_invariants :
    (∀ last a u o : ℚ, 0 ≤ u → 0 ≤ o →
      o ≤ (compute_tracker_delay last a u o).1 ∧
      last ≤ (compute_tracker_delay last a u o).2) ∧
    (∀ (calls : List (ℚ × ℚ × ℚ)) (last : ℚ),
      (∀ c ∈ calls, 0 ≤ c.2.1 ∧ 0 ≤ c.2.2) →
      List.Chain' (· ≤ ·)
        (last :: (compute_tracker_delay_run last calls).map Prod.snd)) := by
  constructor
  · intro last a u o hu ho
    exact compute_tracker_delay_step last a u o hu ho
  · intro calls
    induction calls with
    | nil => intro last _; simp [compute_tracker_delay_run]
    | cons c rest ih =>
      obtain ⟨w, u, o⟩ := c
      intro last h
      have hc := h (w, u, o) (List.mem_cons_self _ _)
      simp only [compute_tracker_delay_run, List.map_cons]
      rw [List.chain'_cons]
      refine ⟨(compute_tracker_delay_step last w u o hc.1 hc.2).2, ?_⟩
      exact ih _ (fun d hd => h d (List.mem_cons_of_mem _ hd))

/-- Witness for C5 at a concrete input. -/
theorem C5_delay_accountant_invariants_witness :
    ((8 : ℚ) ≤ (compute_tracker_delay 0 0 5 8).1 ∧
      (0 : ℚ) ≤ (compute_tracker_delay 0 0 5 8).2) ∧
    List.Chain' (· ≤ ·)
      ((0 : ℚ) :: (compute_tracker_delay_run 0 [(0, 5, 8)]).map Prod.snd) :=
  ⟨C5_delay_accountant_invariants.1 0 0 5 8 (by norm_num) (by norm_num),
   C5_delay_accountant_invariants.2 [(0, 5, 8)] 0 (by
    intro c hc
    simp only [List.mem_singleton] at hc
    subst hc
    norm_num)⟩

/-- C10: in `MPCRunner.run_MPC`, a result that is exactly the neutral
command (throttle 0, brake 0.5, steer 0) is replaced by the stored
command when one was stored (stored throttle and brake differ from
`-1`, leaving the state unchanged), and in every other case the stored
state is overwritten with the controller's command. -/
theorem C10_run_MPC_substitution :
    ∀ (s t b r : ℚ) (st : MPCState),
      ((t = 0 ∧ b = 1/2 ∧ s = 0) → (st.throttle ≠ -1 ∧ st.brake ≠ -1) →
        run_MPC (s, t, b, r) st = st) ∧
      ((t = 0 ∧ b = 1/2 ∧ s = 0) → ¬(st.throttle ≠ -1 ∧ st.brake ≠ -1) →
        run_MPC (s, t, b, r) st = { throttle := t, brake := b, steer := s }) ∧
      (¬(t = 0 ∧ b = 1/2 ∧ s = 0) →
        run_MPC (s, t, b, r) st = { throttle := t, brake := b, steer := s }) := by
  intro s t b r st
  refine ⟨?_, ?_, ?_⟩
  · intro h₁ h₂
    simp only [run_MPC, if_pos h₁, if_pos h₂]
  · intro h₁ h₂
    simp only [run_MPC, if_pos h₁, if_neg h₂]
  · intro h₁
    simp only [run_MPC, if_neg h₁]

/-- Witness for C10: a neutral controller result with a stored command
leaves the stored command in place. -/
theorem C10_run_MPC_substitution_witness :
    run_MPC (0, 0, 1/2, 7) ⟨2, 3, 4⟩ = ⟨2, 3, 4⟩ :=
  (C10_run_MPC_substitution 0 0 (1/2) 7 ⟨2, 3, 4⟩).1
    (by norm_num) (by norm_num)

/-- Concrete flags: neither tracking server enabled, reinitialize on
every detection. -/
def localFlags : TrackerFlags :=
  { use_cloud_tracking_server := false, use_local_tracking_server := false,
    track_every_nth_detection := 1 }

/-- Concrete flags: the local tracking server enabled. -/
def localServerFlags : TrackerFlags :=
  { use_cloud_tracking_server := false, use_local_tracking_server := true,
    track_every_nth_detection := 1 }

/-- A concrete tracker environment whose local tracker succeeds. -/
def sampleTrackerEnv : TrackerEnv :=
  { reinit_tracker := fun _ _ => 2
    track := fun _ => (3, (true, []))
    newConn := 7
    server_call := fun _ _ _ _ => Except.ok ([], 4) }

/-- A concrete tracker environment whose local tracker reports failure
(`ok = False`). -/
def failingTrackerEnv : TrackerEnv :=
  { reinit_tracker := fun _ _ => 2
    track := fun _ => (3, (false, []))
    newConn := 7
    server_call := fun _ _ _ _ => Except.ok ([], 4) }

/-- A concrete tracker environment whose remote call fails at the
socket level. -/
def failingSocketEnv : TrackerEnv :=
  { reinit_tracker := fun _ _ => 0
    track := fun _ => (0, (true, []))
    newConn := 11
    server_call := fun _ _ _ _ => Except.error PyErr.socketError }

/-- The non-terminal timestamp `[5]`. -/
def ts5 : Timestamp := { coordinates := [5], is_top := false }

/-- C9: whenever the head of the tracker's obstacles buffer does not
carry the join timestamp, or the incremented detection-update count is
not a multiple of `track_every_nth_detection`, `on_watermark` reads the
local variable `reinit` before any branch assigned it and the join
fails with an unbound-local error (in the remote configuration the
unassigned `reinit` is read as a call argument, in the local one in the
branch condition), producing no tracked-obstacles message. -/
theorem C9_reinit_unbound (fl : TrackerFlags) (env : TrackerEnv)
    (timestamp : Timestamp) (st : TrackerState)
    (hts : timestamp.is_top = false)
    (f : FrameMessage) (fr : List FrameMessage) (hf : st.frame_msgs = f :: fr)
    (hobs : ∀ m mr, st.obstacles_msgs = m :: mr →
      m.timestamp ≠ timestamp ∨
      (st.detection_update_count + 1) % fl.track_every_nth_detection ≠ 0) :
    (tracker_on_watermark fl env timestamp st).2 =
      Except.error PyErr.unboundLocal := by
  unfold tracker_on_watermark
  simp only [hts, Bool.false_eq_true, if_false, hf]
  cases ho : st.obstacles_msgs with
  | nil =>
    by_cases hsrv :
        (fl.use_local_tracking_server || fl.use_cloud_tracking_server) = true <;>
      simp [hsrv]
  | cons m mr =>
    rcases hobs m mr ho with hne | hmod
    · simp only [if_neg hne]
      by_cases hsrv :
          (fl.use_local_tracking_server || fl.use_cloud_tracking_server) = true <;>
        simp [hsrv]
    · by_cases hne : m.timestamp = timestamp
      · simp only [if_pos hne, if_neg hmod]
        by_cases hsrv :
            (fl.use_local_tracking_server || fl.use_cloud_tracking_server) = true <;>
          simp [hsrv]
      · simp only [if_neg hne]
        by_cases hsrv :
            (fl.use_local_tracking_server || fl.use_cloud_tracking_server) = true <;>
          simp [hsrv]

/-- Witness for C9: a concrete join with an empty obstacles buffer. -/
theorem C9_reinit_unbound_witness :
    (tracker_on_watermark localFlags sampleTrackerEnv ts5
      { TrackerState.init with
        frame_msgs := [{ timestamp := ts5, frame := { data := 0 } }] }).2 =
      Except.error PyErr.unboundLocal :=
  C9_reinit_unbound localFlags sampleTrackerEnv ts5 _ rfl
    { timestamp := ts5, frame := { data := 0 } } [] rfl
    (by intro m mr h; cases h)

/-- C3 (code bug exhibit): at a non-terminal join timestamp whose
obstacles buffer is empty — the missing-input case the source's own
comment says it handles by proceeding with an empty obstacle list —
`on_watermark` raises an unbound-local error on `reinit` and emits
nothing, instead of passing the empty marker through the join. -/
theorem C3_empty_marker_crash :
    (tracker_on_watermark localFlags sampleTrackerEnv ts5
      { TrackerState.init with
        frame_msgs := [{ timestamp := ts5, frame := { data := 1 } }] }).2 =
      Except.error PyErr.unboundLocal ∧
    sentCount
      (tracker_on_watermark localFlags sampleTrackerEnv ts5
        { TrackerState.init with
          frame_msgs := [{ timestamp := ts5, frame := { data := 1 } }] }).2 = 0 :=
  ⟨rfl, rfl⟩

/-- C6: when the local tracking capability reports `ok = False` on a
join that reaches it (obstacles aligned, reinitialization due),
`on_watermark` fails with the `assert ok` assertion and emits no
tracked-obstacles message; in the remote configuration the source
hard-codes `ok = True`, so `ok = False` can only be reported by the
local path. -/
theorem C6_capability_failure_asserts (fl : TrackerFlags) (env : TrackerEnv)
    (timestamp : Timestamp) (st : TrackerState)
    (hts : timestamp.is_top = false)
    (hlocal : fl.use_local_tracking_server = false)
    (hcloud : fl.use_cloud_tracking_server = false)
    (f : FrameMessage) (fr : List FrameMessage) (hf : st.frame_msgs = f :: fr)
    (m : ObstaclesMessage) (mr : List ObstaclesMessage)
    (hm : st.obstacles_msgs = m :: mr)
    (hmts : m.timestamp = timestamp)
    (hmod : (st.detection_update_count + 1) % fl.track_every_nth_detection = 0)
    (hok : (env.track f.frame).2.1 = false) :
    (tracker_on_watermark fl env timestamp st).2 =
      Except.error PyErr.assertionError ∧
    sentCount (tracker_on_watermark fl env timestamp st).2 = 0 := by
  have key : (tracker_on_watermark fl env timestamp st).2 =
      Except.error PyErr.assertionError := by
    unfold tracker_on_watermark
    simp only [hts, Bool.false_eq_true, if_false, hf, hm, if_pos hmts,
      if_pos hmod, hlocal, hcloud, Bool.or_self]
    unfold tracker_finish
    simp [hok]
  exact ⟨key, by rw [key]; rfl⟩

/-- Witness for C6: a concrete failing local tracker. -/
theorem C6_capability_failure_asserts_witness :
    (tracker_on_watermark localFlags failingTrackerEnv ts5
      { TrackerState.init with
        frame_msgs := [{ timestamp := ts5, frame := { data := 0 } }],
        obstacles_msgs := [{ timestamp := ts5, obstacles := [], runtime := 1 }] }).2 =
      Except.error PyErr.assertionError ∧
    sentCount
      (tracker_on_watermark localFlags failingTrackerEnv ts5
        { TrackerState.init with
          frame_msgs := [{ timestamp := ts5, frame := { data := 0 } }],
          obstacles_msgs := [{ timestamp := ts5, obstacles := [], runtime := 1 }] }).2
      = 0 :=
  C6_capability_failure_asserts localFlags failingTrackerEnv ts5 _ rfl rfl rfl
    { timestamp := ts5, frame := { data := 0 } } [] rfl
    { timestamp := ts5, obstacles := [], runtime := 1 } [] rfl rfl (by decide) rfl

/-- Concrete PID flags with the remote server disabled. -/
def pidLocalFlags : PIDFlags :=
  { use_remote_pid_server := false, min_pid_steer_waypoint_distance := 1,
    min_pid_speed_waypoint_distance := 1, steer_gain := 1 }

/-- Concrete PID flags with the remote server enabled. -/
def pidRemoteFlags : PIDFlags :=
  { use_remote_pid_server := true, min_pid_steer_waypoint_distance := 1,
    min_pid_speed_waypoint_distance := 1, steer_gain := 1 }

/-- A concrete PID environment whose remote server returns a
non-neutral command (full throttle, no brake). -/
def samplePIDEnv : PIDEnv :=
  { angle := fun _ _ _ => 0, target_speed := fun _ _ _ => 0,
    throttle_brake := fun _ _ => (1, 0), radians_to_steer := fun a _ => a,
    newConn := 5, server_call := fun _ _ _ => Except.ok (0, 1, 0) }

/-- A concrete PID operator state holding a pose and a single-waypoint
path for timestamp `[5]`. -/
def pidStOneWaypoint : PIDState :=
  { waypoint_msgs :=
      [{ timestamp := ts5, waypoints := { waypoints := [42], target_speeds := [0] } }],
    pose_msgs := [{ timestamp := ts5, data := { transform := 0, forward_speed := 0 } }],
    server := none }

/-- C8 counterexample: at the non-terminal aligned timestamp `[5]` with
the obstacles buffer aligned and a local tracker reporting failure,
the tracker's join emits zero messages on its output stream, not
exactly one. -/
theorem C8_counterexample :
    sentCount
      (tracker_on_watermark localFlags failingTrackerEnv ts5
        { TrackerState.init with
          frame_msgs := [{ timestamp := ts5, frame := { data := 0 } }],
          obstacles_msgs := [{ timestamp := ts5, obstacles := [], runtime := 1 }] }).2
      ≠ 1 := by
  rw [show
    sentCount
      (tracker_on_watermark localFlags failingTrackerEnv ts5
        { TrackerState.init with
          frame_msgs := [{ timestamp := ts5, frame := { data := 0 } }],
          obstacles_msgs := [{ timestamp := ts5, obstacles := [], runtime := 1 }] }).2
      = 0 from rfl]
  decide

/-- C8 (amended): every join invocation at a non-terminal timestamp
that completes without raising emits exactly one result message on its
output stream — for the tracker operator and the PID control operator
alike, the fallback paths included; invocations that raise emit
none. -/
theorem C8_exactly_one_on_success :
    (∀ (fl : TrackerFlags) (env : TrackerEnv) (timestamp : Timestamp)
        (st st' : TrackerState) (msgs : List ObstaclesMessage),
      timestamp.is_top = false →
      tracker_on_watermark fl env timestamp st = (st', Except.ok msgs) →
      msgs.length = 1) ∧
    (∀ (fl : PIDFlags) (env : PIDEnv) (timestamp : Timestamp)
        (st st' : PIDState) (msgs : List ControlMessage),
      timestamp.is_top = false →
      pid_on_watermark fl env timestamp st = (st', Except.ok msgs) →
      msgs.length = 1) := by
  constructor
  · intro fl env timestamp st st' msgs hts h
    unfold tracker_on_watermark tracker_fetch_from_server tracker_finish at h
    simp only [hts, Bool.false_eq_true, if_false] at h
    repeat' split at h
    all_goals
      injection h with h1 h2
      first
      | exact Except.noConfusion h2
      | (injection h2 with h3; subst h3; rfl)
  · intro fl env timestamp st st' msgs hts h
    unfold pid_on_watermark pid_fetch_from_server at h
    simp only [hts, Bool.false_eq_true, if_false] at h
    repeat' split at h
    all_goals
      injection h with h1 h2
      first
      | exact Except.noConfusion h2
      | (injection h2 with h3; subst h3; rfl)

/-- Witness for C8 (amended): the PID fallback at a single remaining
waypoint emits exactly one message. -/
theorem C8_exactly_one_on_success_witness :
    sentCount (pid_on_watermark pidLocalFlags samplePIDEnv ts5 pidStOneWaypoint).2
      = 1 := by
  have h : pid_on_watermark pidLocalFlags samplePIDEnv ts5 pidStOneWaypoint =
      ({ waypoint_msgs := [], pose_msgs := [], server := none },
       Except.ok [{ steer := 0, throttle := 0, brake := 1/2, hand_brake := false,
                    reverse := false, timestamp := ts5 }]) := rfl
  rw [h]
  exact C8_exactly_one_on_success.2 pidLocalFlags samplePIDEnv ts5
    pidStOneWaypoint _ _ rfl h

/-- Helper: a 4-byte big-endian prefix decodes back to the encoded
length when it fits in 32 bits. -/
theorem beDecode4_beEncode4 (n : Nat) (h : n < 2 ^ 32) :
    beDecode4 (n / 2 ^ 24 % 256) (n / 2 ^ 16 % 256) (n / 2 ^ 8 % 256) (n % 256)
      = n := by
  have h' : n < 4294967296 := by
    calc n < 2 ^ 32 := h
    _ = 4294967296 := by norm_num
  simp only [beDecode4, show (2 : ℕ) ^ 24 = 16777216 by norm_num,
    show (2 : ℕ) ^ 16 = 65536 by norm_num, show (2 : ℕ) ^ 8 = 256 by norm_num]
  omega

/-- C2 counterexample: on the response stream `[0,0,0,5,97]` — a frame
whose 4-byte big-endian prefix declares 5 bytes but only 1 follows —
the claimed receive discipline fails with a transport error, while the
source's `recv(4096)` hands all five raw bytes (prefix included) to
deserialization; and on the complete frame `[0,0,0,2,97,98]` the
source does not deliver the declared 2-byte payload either. -/
theorem C2_counterexample :
    claimed_recv [0, 0, 0, 5, 97] = Except.error PyErr.socketError ∧
    fetch_recv [0, 0, 0, 5, 97] = [0, 0, 0, 5, 97] ∧
    fetch_recv [0, 0, 0, 2, 97, 98] ≠ [97, 98] := by
  refine ⟨rfl, rfl, by decide⟩

/-- C2 (amended): the request side frames payloads with a 4-byte
big-endian length prefix (`service.send_msg`, modelled from the spec,
round-trips through length-prefixed decoding), but the response side
is a single `recv` of up to 4096 bytes handed directly to
deserialization, with no length-prefixed read and no transport error
on truncation. -/
theorem C2_send_framed_recv_unframed :
    (∀ stream : List Nat, fetch_recv stream = stream.take 4096) ∧
    (∀ payload : List Nat, payload.length < 2 ^ 32 →
      claimed_recv (send_msg payload) = Except.ok payload) := by
  constructor
  · intro stream; rfl
  · intro payload h
    simp only [send_msg, beEncode4, List.cons_append, List.nil_append, claimed_recv]
    rw [beDecode4_beEncode4 payload.length h, if_pos (le_refl _), List.take_length]

/-- Witness for C2 (amended) at concrete byte strings. -/
theorem C2_send_framed_recv_unframed_witness :
    fetch_recv [1, 2, 3] = [1, 2, 3].take 4096 ∧
    claimed_recv (send_msg [9, 9]) = Except.ok [9, 9] :=
  ⟨C2_send_framed_recv_unframed.1 [1, 2, 3],
   C2_send_framed_recv_unframed.2 [9, 9] (by norm_num)⟩

/-- C4 (amended): when the remote PID server is disabled, a
non-terminal join whose remaining path has fewer than 2 waypoints
emits exactly one neutral control message (steer 0, throttle 0,
brake 0.5): the single-waypoint case through the explicit braking
branch, the empty case through the `except ValueError` fallback. -/
theorem C4_neutral_fallback (fl : PIDFlags) (env : PIDEnv) (timestamp : Timestamp)
    (st : PIDState) (hts : timestamp.is_top = false)
    (hremote : fl.use_remote_pid_server = false)
    (p : PoseMessage) (pr : List PoseMessage) (hp : st.pose_msgs = p :: pr)
    (w : WaypointsMessage) (wr : List WaypointsMessage)
    (hw : st.waypoint_msgs = w :: wr)
    (hlen : w.waypoints.waypoints.length < 2) :
    (pid_on_watermark fl env timestamp st).2 =
      Except.ok [{ steer := 0, throttle := 0, brake := 1/2, hand_brake := false,
                   reverse := false, timestamp := timestamp }] := by
  unfold pid_on_watermark
  simp only [hts, Bool.false_eq_true, if_false, hp, hw, hremote]
  have hcase : w.waypoints.waypoints.length = 0 ∨ w.waypoints.waypoints.length = 1 := by
    omega
  rcases hcase with h0 | h1
  · have hnil : w.waypoints.waypoints = [] := List.length_eq_zero.mp h0
    rw [if_neg (by omega : ¬ w.waypoints.waypoints.length = 1)]
    simp [get_angle, hnil]
  · rw [if_pos h1]

/-- Witness for C4 (amended): a single remaining waypoint yields the
neutral command. -/
theorem C4_neutral_fallback_witness :
    (pid_on_watermark pidLocalFlags samplePIDEnv ts5 pidStOneWaypoint).2 =
      Except.ok [{ steer := 0, throttle := 0, brake := 1/2, hand_brake := false,
                   reverse := false, timestamp := ts5 }] :=
  C4_neutral_fallback pidLocalFlags samplePIDEnv ts5 pidStOneWaypoint rfl rfl
    _ _ rfl _ _ rfl (by decide)

/-- C4 counterexample: with the remote PID server enabled, the same
single-waypoint join forwards the server's command — here full
throttle and no brake — instead of the claimed neutral command. -/
theorem C4_counterexample :
    (pid_on_watermark pidRemoteFlags samplePIDEnv ts5 pidStOneWaypoint).2 =
      Except.ok [{ steer := 0, throttle := 1, brake := 0, hand_brake := false,
                   reverse := false, timestamp := ts5 }] ∧
    ({ steer := 0, throttle := 1, brake := 0, hand_brake := false,
       reverse := false, timestamp := ts5 } : ControlMessage) ≠
      { steer := 0, throttle := 0, brake := 1/2, hand_brake := false,
        reverse := false, timestamp := ts5 } := by
  constructor
  · rfl
  · intro hcontra
    have hthr := congrArg ControlMessage.throttle hcontra
    norm_num at hthr

/-- C7 (amended): the offload client connects lazily — on a call with
no stored connection and a server flag enabled it stores a fresh
socket and uses it — and a call that finds a stored connection reuses
it and leaves the state exactly as it was, whether or not the round
trip fails (the source never clears `self._server` and raises the raw
socket error rather than a dedicated transport error). -/
theorem C7_connection_lifecycle (fl : TrackerFlags) (env : TrackerEnv)
    (st : TrackerState) (frame : CameraFrame) (obstacles : List Obstacle)
    (reinit : Bool) :
    (st.server = none →
      (fl.use_cloud_tracking_server = true ∨ fl.use_local_tracking_server = true) →
      (tracker_fetch_from_server fl env st frame obstacles reinit).1.server
        = some env.newConn ∧
      (tracker_fetch_from_server fl env st frame obstacles reinit).2
        = env.server_call env.newConn frame obstacles reinit) ∧
    (∀ c, st.server = some c →
      (tracker_fetch_from_server fl env st frame obstacles reinit).1 = st ∧
      (tracker_fetch_from_server fl env st frame obstacles reinit).2
        = env.server_call c frame obstacles reinit) := by
  constructor
  · intro hnone hen
    unfold tracker_fetch_from_server tracker_connect_to_server
    by_cases hc : fl.use_cloud_tracking_server = true
    · simp [hnone, hc]
    · rcases hen with hcl | hl
      · exact absurd hcl hc
      · simp [hnone, hc, hl]
  · intro c hc
    unfold tracker_fetch_from_server
    simp [hc]

/-- Witness for C7 (amended): the first call on the local-server
configuration stores and uses the fresh socket. -/
theorem C7_connection_lifecycle_witness :
    (tracker_fetch_from_server localServerFlags sampleTrackerEnv TrackerState.init
        { data := 0 } [] true).1.server = some sampleTrackerEnv.newConn ∧
    (tracker_fetch_from_server localServerFlags sampleTrackerEnv TrackerState.init
        { data := 0 } [] true).2 =
      sampleTrackerEnv.server_call sampleTrackerEnv.newConn { data := 0 } [] true :=
  (C7_connection_lifecycle localServerFlags sampleTrackerEnv TrackerState.init
    { data := 0 } [] true).1 rfl (Or.inr rfl)

/-- C7 counterexample: after a remote call that fails at the socket
level, the client's stored connection is not invalidated — it still
holds the socket from the failed call — so the next call's
reconnect guard (`self._server == None`) cannot fire. -/
theorem C7_counterexample :
    (tracker_fetch_from_server localServerFlags failingSocketEnv TrackerState.init
        { data := 0 } [] true).2 = Except.error PyErr.socketError ∧
    (tracker_fetch_from_server localServerFlags failingSocketEnv TrackerState.init
        { data := 0 } [] true).1.server ≠ none := by
  constructor
  · rfl
  · rw [show (tracker_fetch_from_server localServerFlags failingSocketEnv
        TrackerState.init { data := 0 } [] true).1.server = some 11 from rfl]
    simp

end Pylot
